/-
Verification of the SLA Trading Signal Pipeline against its specification.

Shallow embedding of the relevant services:
  * src/services/riskManager.ts      — evaluateSignalRisk, checkRiskAlerts, generateAlert
  * src/services/liveDataPipeline.ts — shouldGenerateSignal and its four condition checks
  * src/services/portfolioManager.ts — createPortfolio, executeSignal, closePosition,
                                       updateMarketData, checkStopLossTakeProfit,
                                       updatePortfolioMetrics

Modelling conventions (applied uniformly):
  * JavaScript numbers are embedded as exact rationals (ℚ); decimal literals such as
    0.2, 0.001, 0.8 denote the exact rationals 1/5, 1/1000, 4/5.
  * Timestamps are integer milliseconds (ℤ); `Date.now()` becomes an explicit `now`
    parameter.  `getTimeSinceLastSignal`'s `Infinity` result (no prior signal) is
    modelled as `Option.none`.
  * Randomly generated string ids (`Date.now() + Math.random()` suffixes) are
    determinized into a `nextId : Nat` counter threaded through the state.
  * String interpolation of numeric values inside alert messages (`toFixed`) is
    elided; the surrounding constant text is kept.  No claim inspects those digits.
  * Structure fields that no embedded function reads (presentation-only fields such
    as `allocation`, `performance`, ISO timestamp strings, `leverage`, trade
    `type`/`status` constants) are omitted, with a comment at each structure.
-/
import Mathlib

/-! ## Shared string helper

`String.prototype.includes` (substring test), used by `calculateCorrelationRisk`. -/

/-- Does `pat` occur as a contiguous infix of `l`? -/
def listInfixCheck (pat : List Char) : List Char → Bool
  | [] => pat.isEmpty
  | c :: rest => pat.isPrefixOf (c :: rest) || listInfixCheck pat rest

/-- JavaScript `s.includes(pat)`. -/
def strIncludes (s pat : String) : Bool :=
  listInfixCheck pat.toList s.toList

/-! ## Market data model (src/services/marketDataService.ts interfaces)

Only the fields read by the embedded functions are retained:
`tick.price`, `tick.change24h`, `orderBook.bids` (length only), `technicals.rsi`,
`technicals.macd.macd/.signal`, `sentiment.score/.confidence`. -/

structure MarketTick where
  price : ℚ
  change24h : ℚ
  deriving DecidableEq

structure OrderBookData where
  bids : List (ℚ × ℚ)
  deriving DecidableEq

structure MacdBundle where
  macd : ℚ
  signalLine : ℚ   -- source field name: `signal`
  deriving DecidableEq

structure TechnicalIndicators where
  rsi : ℚ
  macd : MacdBundle
  deriving DecidableEq

structure SentimentData where
  score : ℚ
  confidence : ℚ
  deriving DecidableEq

structure LiveMarketData where
  tick : MarketTick
  orderBook : OrderBookData
  technicals : TechnicalIndicators
  sentiment : SentimentData
  deriving DecidableEq

/-! ## Signal model (PipelineSignal from src/services/liveDataPipeline.ts)

Fields read by the embedded functions: `id`, `symbol`, `timestamp`, `direction`,
`entryPrice`, `stopLoss`, `takeProfit`.  `confidence`, `riskScore`,
`signalStrength`, `reasoning`, `status` and the embedded market data are never
read by the functions under verification and are omitted. -/

inductive SignalDirection where
  | BUY | SELL | HOLD
  deriving DecidableEq

structure PipelineSignal where
  id : Nat
  symbol : String
  timestamp : ℤ
  direction : SignalDirection
  entryPrice : ℚ
  stopLoss : ℚ
  takeProfit : ℚ
  deriving DecidableEq

/-! ## Risk manager (src/services/riskManager.ts) -/

/-- RiskParameters (riskManager.ts lines 12-23).  `maxOpenPositions` is a count. -/
structure RiskParameters where
  maxPositionSize : ℚ
  maxDailyLoss : ℚ
  maxDrawdown : ℚ
  maxLeverage : ℚ
  stopLossPercentage : ℚ
  takeProfitPercentage : ℚ
  maxOpenPositions : Nat
  correlationLimit : ℚ
  volatilityThreshold : ℚ
  liquidityThreshold : ℚ
  deriving DecidableEq

/-- getDefaultRiskParameters (riskManager.ts lines 80-93). -/
def getDefaultRiskParameters : RiskParameters where
  maxPositionSize := 10000
  maxDailyLoss := 2000
  maxDrawdown := 15
  maxLeverage := 3
  stopLossPercentage := 2
  takeProfitPercentage := 6
  maxOpenPositions := 5
  correlationLimit := 0.7
  volatilityThreshold := 25
  liquidityThreshold := 1000000

/-- PositionRisk entry of the risk manager's `positions` map.  Only `symbol` is
read by `evaluateSignalRisk` (via `calculateCorrelationRisk`); the remaining
fields are omitted. -/
structure PositionRisk where
  symbol : String
  deriving DecidableEq

/-- calculateVolatility (riskManager.ts lines 379-381). -/
def calculateVolatility (marketData : LiveMarketData) : ℚ :=
  |marketData.tick.change24h| * 2

/-- calculateCorrelationRisk (riskManager.ts lines 383-392). -/
def calculateCorrelationRisk (positions : List PositionRisk) (symbol : String) : ℚ :=
  let existingSymbols := positions.map (·.symbol)
  let sameAssetClass :=
    (existingSymbols.filter (fun s =>
      (strIncludes s ("BTC") && strIncludes symbol ("BTC")) ||
      (strIncludes s ("ETH") && strIncludes symbol ("ETH")))).length
  (sameAssetClass : ℚ) / max (existingSymbols.length : ℚ) 1

/-- assessLiquidityRisk (riskManager.ts lines 394-397). -/
def assessLiquidityRisk (marketData : LiveMarketData) : ℚ :=
  if marketData.orderBook.bids.length < 10 then 0.8 else 0.2

/-- The stop-loss / take-profit adjustments returned by `evaluateSignalRisk`. -/
structure SignalAdjustments where
  stopLoss : ℚ
  takeProfit : ℚ
  riskScore : ℚ
  deriving DecidableEq

/-- Result record of `evaluateSignalRisk`. -/
structure RiskEvaluation where
  approved : Bool
  riskScore : ℚ
  reasons : List String
  adjustments : SignalAdjustments
  deriving DecidableEq

/-- evaluateSignalRisk (riskManager.ts lines 113-186).

The imperative accumulation (`reasons.push`, `riskScore +=`, `approved = false`)
is rendered as: reasons are concatenated in program order, the risk score is the
sum of the per-branch increments, and `approved` is the conjunction of the three
hard checks (only the size / daily-loss / position-count branches clear it). -/
def evaluateSignalRisk (rp : RiskParameters) (dailyPnL : ℚ)
    (positions : List PositionRisk) (signal : PipelineSignal)
    (marketData : LiveMarketData) : RiskEvaluation :=
  -- line 124: `signal.entryPrice * 100 > maxPositionSize` (assuming 100 shares)
  let sizeViol := decide (signal.entryPrice * 100 > rp.maxPositionSize)
  -- line 131: `this.dailyPnL < -maxDailyLoss`
  let dailyViol := decide (dailyPnL < -rp.maxDailyLoss)
  -- line 138: `this.positions.size >= maxOpenPositions`
  let countViol := decide (positions.length ≥ rp.maxOpenPositions)
  -- line 146: volatility above threshold (soft: does not clear `approved`)
  let volViol := decide (calculateVolatility marketData > rp.volatilityThreshold)
  -- line 153: correlation above limit (soft)
  let corrViol := decide (calculateCorrelationRisk positions signal.symbol > rp.correlationLimit)
  -- line 160: liquidity risk above 0.5 (soft)
  let liqViol := decide (assessLiquidityRisk marketData > 0.5)
  let reasons : List String :=
    (if sizeViol then [("Position size exceeds maximum limit")] else []) ++
    (if dailyViol then [("Daily loss limit reached")] else []) ++
    (if countViol then [("Maximum open positions reached")] else []) ++
    (if volViol then [("Market volatility too high")] else []) ++
    (if corrViol then [("High correlation with existing positions")] else []) ++
    (if liqViol then [("Insufficient market liquidity")] else [])
  let riskScore : ℚ :=
    (if sizeViol then 30 else 0) + (if dailyViol then 50 else 0) +
    (if countViol then 25 else 0) + (if volViol then 20 else 0) +
    (if corrViol then 15 else 0) + (if liqViol then 10 else 0)
  let approved := !sizeViol && !dailyViol && !countViol
  -- lines 166-172: recomputed stop-loss / take-profit levels
  let stopLoss := match signal.direction with
    | SignalDirection.BUY => signal.entryPrice * (1 - rp.stopLossPercentage / 100)
    | _ => signal.entryPrice * (1 + rp.stopLossPercentage / 100)
  let takeProfit := match signal.direction with
    | SignalDirection.BUY => signal.entryPrice * (1 + rp.takeProfitPercentage / 100)
    | _ => signal.entryPrice * (1 - rp.takeProfitPercentage / 100)
  { approved := approved && decide (riskScore < 70)  -- line 181
    riskScore := riskScore
    reasons := reasons
    adjustments :=
      { stopLoss := stopLoss, takeProfit := takeProfit,
        riskScore := min riskScore 100 } }           -- line 177

/-! ### Risk alerts (checkRiskAlerts / generateAlert) -/

inductive RiskAlertType where
  | POSITION | PORTFOLIO | MARKET | SYSTEM
  deriving DecidableEq

inductive RiskSeverity where
  | LOW | MEDIUM | HIGH | CRITICAL
  deriving DecidableEq

inductive RiskAction where
  | MONITOR | REDUCE | CLOSE | HALT
  deriving DecidableEq

/-- RiskAlert (riskManager.ts lines 50-60).  Note: the interface has no
`resolved` field.  The random string id is determinized to a counter and the
ISO `timestamp`/optional `symbol` fields are omitted. -/
structure RiskAlert where
  id : Nat
  rtype : RiskAlertType   -- source field name: `type`
  severity : RiskSeverity
  message : String
  value : ℚ
  threshold : ℚ
  action : RiskAction
  deriving DecidableEq

/-- The risk-manager state read and written by `checkRiskAlerts`. -/
structure RiskState where
  params : RiskParameters
  dailyPnL : ℚ
  alerts : List RiskAlert
  nextId : Nat
  deriving DecidableEq

/-- The fields of PortfolioRisk read by `checkRiskAlerts`. -/
structure PortfolioRiskView where
  currentDrawdown : ℚ
  concentrationRisk : ℚ
  deriving DecidableEq

/-- generateAlert (riskManager.ts lines 326-348): unconditionally prepend a
fresh alert (new id) and truncate the list to the most recent 100. -/
def generateAlert (st : RiskState) (t : RiskAlertType) (sev : RiskSeverity)
    (msg : String) (value threshold : ℚ) (action : RiskAction) : RiskState :=
  let a : RiskAlert :=
    { id := st.nextId, rtype := t, severity := sev, message := msg,
      value := value, threshold := threshold, action := action }
  { st with alerts := (a :: st.alerts).take 100, nextId := st.nextId + 1 }

/-- checkRiskAlerts (riskManager.ts lines 285-321).  Numeric interpolation in the
messages is elided. -/
def checkRiskAlerts (st : RiskState) (pr : PortfolioRiskView) : RiskState :=
  -- daily loss alert (lines 287-296)
  let st :=
    if st.dailyPnL < -st.params.maxDailyLoss * 0.8 then
      generateAlert st RiskAlertType.PORTFOLIO
        (if st.dailyPnL < -st.params.maxDailyLoss then RiskSeverity.CRITICAL
         else RiskSeverity.HIGH)
        ("Daily loss approaching limit") |st.dailyPnL| st.params.maxDailyLoss
        (if st.dailyPnL < -st.params.maxDailyLoss then RiskAction.HALT
         else RiskAction.MONITOR)
    else st
  -- drawdown alert (lines 299-308)
  let st :=
    if pr.currentDrawdown > st.params.maxDrawdown * 0.8 then
      generateAlert st RiskAlertType.PORTFOLIO
        (if pr.currentDrawdown > st.params.maxDrawdown then RiskSeverity.CRITICAL
         else RiskSeverity.HIGH)
        ("Drawdown approaching limit") pr.currentDrawdown st.params.maxDrawdown
        (if pr.currentDrawdown > st.params.maxDrawdown then RiskAction.REDUCE
         else RiskAction.MONITOR)
    else st
  -- concentration risk alert (lines 311-320)
  let st :=
    if pr.concentrationRisk > 0.4 then
      generateAlert st RiskAlertType.PORTFOLIO RiskSeverity.MEDIUM
        ("High concentration risk detected") pr.concentrationRisk 0.4
        RiskAction.MONITOR
    else st
  st

/-! ## Signal generation (src/unnamed/part_000, LiveDataPipeline)

`shouldGenerateSignal` and its four condition checks.  `Date.now()` is the
explicit `now` parameter; the signal history is the list of previously stored
signals (the values of the `signals` map). -/

/-- The 30000 ms cooldown used by `checkTimeCondition` (part_000 line 349). -/
def cooldownMs : ℤ := 30000

/-- The 30000 ms force-generation threshold (part_000 line 297). -/
def forceMs : ℤ := 30000

/-- Timestamp of the symbol's most recent signal, none if it has none.
The source sorts the symbol's signals by timestamp descending and takes the
first; its timestamp is the maximum of the symbol's signal timestamps. -/
def lastSignalTimestamp (signals : List PipelineSignal) (symbol : String) : Option ℤ :=
  match (signals.filter (fun s => s.symbol == symbol)).map (·.timestamp) with
  | [] => none
  | t :: ts => some (ts.foldl (fun a b => if a < b then b else a) t)

/-- getTimeSinceLastSignal (part_000 lines 314-322); `none` models the
`Infinity` returned when the symbol has no prior signal. -/
def getTimeSinceLastSignal (now : ℤ) (signals : List PipelineSignal)
    (symbol : String) : Option ℤ :=
  (lastSignalTimestamp signals symbol).map (fun t => now - t)

/-- checkVolatilityCondition (part_000 lines 324-327): |24h change| > 1%. -/
def checkVolatilityCondition (data : LiveMarketData) : Bool :=
  |data.tick.change24h| > 1

/-- checkTechnicalCondition (part_000 lines 329-333). -/
def checkTechnicalCondition (data : LiveMarketData) : Bool :=
  (data.technicals.rsi < 40 || data.technicals.rsi > 60) ||
    (data.technicals.macd.macd ≠ data.technicals.macd.signalLine)

/-- checkSentimentCondition (part_000 lines 335-338). -/
def checkSentimentCondition (data : LiveMarketData) : Bool :=
  |data.sentiment.score| > 0.3 && data.sentiment.confidence > 0.5

/-- checkTimeCondition (part_000 lines 340-350): true when the symbol has no
prior signal, else true when more than `cooldownMs` has elapsed. -/
def checkTimeCondition (now : ℤ) (signals : List PipelineSignal)
    (symbol : String) : Bool :=
  match lastSignalTimestamp signals symbol with
  | none => true
  | some t => now - t > cooldownMs

/-- shouldGenerateSignal (part_000 lines 241-304): generate when at least one of
the four conditions holds; otherwise force-generate when more than `forceMs`
has elapsed since the symbol's last signal (`Infinity`, i.e. no prior signal,
also passes that test). -/
def shouldGenerateSignal (now : ℤ) (signals : List PipelineSignal)
    (symbol : String) (data : LiveMarketData) : Bool :=
  let conditions := [checkVolatilityCondition data, checkTechnicalCondition data,
    checkSentimentCondition data, checkTimeCondition now signals symbol]
  let metConditions := (conditions.filter (fun b => b)).length
  let shouldGenerate := metConditions ≥ 1
  if !shouldGenerate then
    match getTimeSinceLastSignal now signals symbol with
    | none => true
    | some d => d > forceMs
  else
    shouldGenerate

/-! ## Portfolio manager (src/services/portfolioManager.ts)

State-passing embedding of the PortfolioManager class.  Per-portfolio data kept
by the class in separate maps keyed by portfolio id (`trades`, `alerts`) is
stored alongside the portfolio in a `PortfolioEntry`; this is the same indexed
family, re-associated. -/

inductive PositionSide where
  | LONG | SHORT
  deriving DecidableEq

inductive PositionStatus where
  | OPEN | CLOSED | PENDING
  deriving DecidableEq

/-- Position (portfolioManager.ts lines 24-41).  `entryTime`, `lastUpdated` and
`leverage` (constant 1) are omitted; `stopLoss`/`takeProfit` are the interface's
optional fields. -/
structure Position where
  id : Nat
  symbol : String
  side : PositionSide
  quantity : ℚ
  entryPrice : ℚ
  currentPrice : ℚ
  marketValue : ℚ
  unrealizedPnL : ℚ
  realizedPnL : ℚ
  stopLoss : Option ℚ
  takeProfit : Option ℚ
  status : PositionStatus
  fees : ℚ
  deriving DecidableEq

/-- Portfolio (portfolioManager.ts lines 10-22).  `name`, `performance`,
`allocation`, `created`, `lastUpdated` are presentation-only and omitted. -/
structure Portfolio where
  id : Nat
  totalValue : ℚ
  availableCash : ℚ
  totalPnL : ℚ
  dailyPnL : ℚ
  positions : List Position
  deriving DecidableEq

inductive TradeSide where
  | BUY | SELL
  deriving DecidableEq

/-- Trade (portfolioManager.ts lines 70-84).  `timestamp`, `type` (always
MARKET here) and `status` (always FILLED here) are omitted. -/
structure Trade where
  id : Nat
  portfolioId : Nat
  symbol : String
  side : TradeSide
  quantity : ℚ
  price : ℚ
  value : ℚ
  fees : ℚ
  signalId : Option Nat
  deriving DecidableEq

inductive PortfolioAlertType where
  | PERFORMANCE | ALLOCATION | POSITION | RISK
  deriving DecidableEq

inductive PortfolioAlertSeverity where
  | INFO | WARNING | ERROR
  deriving DecidableEq

/-- PortfolioAlert (portfolioManager.ts lines 86-94), `timestamp` omitted. -/
structure PortfolioAlert where
  id : Nat
  portfolioId : Nat
  ptype : PortfolioAlertType   -- source field name: `type`
  severity : PortfolioAlertSeverity
  message : String
  acknowledged : Bool
  deriving DecidableEq

/-- One portfolio together with its trade history and alert list. -/
structure PortfolioEntry where
  portfolio : Portfolio
  trades : List Trade
  alerts : List PortfolioAlert
  deriving DecidableEq

/-- PortfolioManager state: the portfolios, the latest tick price per symbol
(the only field of the cached LiveMarketData that `updateMarketData` reads),
and the determinized id counter. -/
structure ManagerState where
  entries : List PortfolioEntry
  marketData : List (String × ℚ)
  nextId : Nat
  deriving DecidableEq

/-- Σ marketValue over a position list. -/
def sumMarketValue (ps : List Position) : ℚ :=
  (ps.map (·.marketValue)).sum

/-- updatePortfolioMetrics (portfolioManager.ts lines 408-421): recompute
`totalValue = availableCash + Σ positions.marketValue`.  The `allocation` and
`performance` recomputations touch only omitted presentation fields. -/
def updatePortfolioMetrics (pf : Portfolio) : Portfolio :=
  { pf with totalValue := pf.availableCash + sumMarketValue pf.positions }

/-- `Map.set` on the symbol → price association list. -/
def setMarketPrice (md : List (String × ℚ)) (symbol : String) (price : ℚ) :
    List (String × ℚ) :=
  if md.any (fun p => p.1 == symbol) then
    md.map (fun p => if p.1 == symbol then (symbol, price) else p)
  else
    md ++ [(symbol, price)]

/-- `Map.get` on the symbol → price association list. -/
def getMarketPrice (md : List (String × ℚ)) (symbol : String) : Option ℚ :=
  (md.find? (fun p => p.1 == symbol)).map (·.2)

/-- createPortfolio (portfolioManager.ts lines 129-158): a fresh portfolio with
`totalValue = availableCash = initialCash`, no positions, and empty trade and
alert lists. -/
def createPortfolio (st : ManagerState) (initialCash : ℚ) : ManagerState :=
  let pf : Portfolio :=
    { id := st.nextId, totalValue := initialCash, availableCash := initialCash,
      totalPnL := 0, dailyPnL := 0, positions := [] }
  { st with
    entries := st.entries ++ [{ portfolio := pf, trades := [], alerts := [] }],
    nextId := st.nextId + 1 }

/-- The PortfolioManager constructor creates the default portfolio with
$100,000 (portfolioManager.ts line 113). -/
def initialManagerState : ManagerState :=
  createPortfolio { entries := [], marketData := [], nextId := 0 } 100000

/-- closePosition core (portfolioManager.ts lines 265-337), acting on one
portfolio entry.  Returns the updated entry, the next fresh id, and the
realized PnL (`none` when the position was not found).  The JS default
`currentPrice || position.currentPrice` treats an explicit 0 as absent. -/
def closePositionEntry (e : PortfolioEntry) (nid : Nat) (positionId : Nat)
    (currentPrice : Option ℚ) : PortfolioEntry × Nat × Option ℚ :=
  let ps := e.portfolio.positions
  let idx := ps.findIdx (fun p => p.id == positionId)
  if h : idx < ps.length then
    let pos := ps.get ⟨idx, h⟩
    let exitPrice := match currentPrice with
      | none => pos.currentPrice
      | some p => if p = 0 then pos.currentPrice else p
    let priceDiff := match pos.side with
      | PositionSide.LONG => exitPrice - pos.entryPrice
      | PositionSide.SHORT => pos.entryPrice - exitPrice
    let realizedPnL := priceDiff * pos.quantity
    let exitValue := pos.quantity * exitPrice
    let fees := exitValue * 0.001
    let trade : Trade :=
      { id := nid, portfolioId := e.portfolio.id, symbol := pos.symbol,
        side := match pos.side with
          | PositionSide.LONG => TradeSide.SELL
          | PositionSide.SHORT => TradeSide.BUY,
        quantity := pos.quantity, price := exitPrice, value := exitValue,
        fees := fees, signalId := none }
    -- the removed position record is marked CLOSED with its realizedPnL set,
    -- then spliced out of the array; only the array state is retained here
    let pf := e.portfolio
    let pf :=
      { pf with
        availableCash := pf.availableCash + (exitValue - fees),
        totalPnL := pf.totalPnL + realizedPnL,
        dailyPnL := pf.dailyPnL + realizedPnL,
        positions := ps.eraseIdx idx }
    let pf := updatePortfolioMetrics pf
    ({ e with portfolio := pf, trades := e.trades ++ [trade] }, nid + 1,
      some realizedPnL)
  else
    (e, nid, none)

/-- addAlert (portfolioManager.ts lines 522-540): unshift a fresh alert and
keep only the most recent 100. -/
def addAlertEntry (e : PortfolioEntry) (nid : Nat) (t : PortfolioAlertType)
    (sev : PortfolioAlertSeverity) (message : String) : PortfolioEntry × Nat :=
  let a : PortfolioAlert :=
    { id := nid, portfolioId := e.portfolio.id, ptype := t, severity := sev,
      message := message, acknowledged := false }
  ({ e with alerts := (a :: e.alerts).take 100 }, nid + 1)

/-- The stop-loss/take-profit trigger (portfolioManager.ts lines 385-391).
JS truthiness: a `stopLoss`/`takeProfit` of 0 (or absent) disables its check.
Both comparisons are inclusive (`<=` / `>=`). -/
def shouldClosePosition (pos : Position) : Bool :=
  (match pos.stopLoss with
    | none => false
    | some s => !(s == 0) &&
        (match pos.side with
          | PositionSide.LONG => decide (pos.currentPrice ≤ s)
          | PositionSide.SHORT => decide (pos.currentPrice ≥ s))) ||
  (match pos.takeProfit with
    | none => false
    | some t => !(t == 0) &&
        (match pos.side with
          | PositionSide.LONG => decide (pos.currentPrice ≥ t)
          | PositionSide.SHORT => decide (pos.currentPrice ≤ t)))

/-- The alert reason (portfolioManager.ts line 396):
`currentPrice <= (stopLoss || 0) ? 'Stop Loss' : 'Take Profit'`. -/
def closeReason (pos : Position) : String :=
  if pos.currentPrice ≤ (match pos.stopLoss with | none => 0 | some s => s)
  then "Stop Loss" else "Take Profit"

/-- checkStopLossTakeProfit (portfolioManager.ts lines 382-403). -/
def checkStopLossTakeProfit (e : PortfolioEntry) (nid : Nat) (pos : Position) :
    PortfolioEntry × Nat :=
  if pos.status ≠ PositionStatus.OPEN then (e, nid)
  else if shouldClosePosition pos then
    let r := closePositionEntry e nid pos.id (some pos.currentPrice)
    let msg := "Position closed automatically: " ++ pos.symbol ++ " (" ++
      closeReason pos ++ ")"
    addAlertEntry r.1 r.2.1 PortfolioAlertType.POSITION
      PortfolioAlertSeverity.INFO msg
  else (e, nid)

/-- The body of `updateMarketData`'s inner `for (const position of
portfolio.positions)` loop (portfolioManager.ts lines 349-370).

JavaScript array iteration is by live index: after the element at index `i` is
visited, the iterator moves to index `i + 1` of the (possibly spliced) array,
so when the visited position is auto-closed (spliced out) the element that
shifted into its slot is skipped.  The loop is modelled with an explicit index
and a fuel argument equal to the initial array length; since the index grows by
one per step and the array never grows, the fuel is never exhausted while
`i < length`.  The Bool result is the `updated` flag. -/
def updateMarketDataLoop (symbol : String) (price : ℚ) :
    Nat → Nat → PortfolioEntry → Nat → Bool → PortfolioEntry × Nat × Bool
  | 0, _, e, nid, upd => (e, nid, upd)
  | fuel + 1, i, e, nid, upd =>
    if h : i < e.portfolio.positions.length then
      let pos := e.portfolio.positions.get ⟨i, h⟩
      if pos.symbol == symbol then
        -- lines 351-359: recompute currentPrice, marketValue, unrealizedPnL
        let priceDiff := match pos.side with
          | PositionSide.LONG => price - pos.entryPrice
          | PositionSide.SHORT => pos.entryPrice - price
        let pos' := { pos with
          currentPrice := price,
          marketValue := pos.quantity * price,
          unrealizedPnL := priceDiff * pos.quantity }
        let e' := { e with portfolio :=
          { e.portfolio with positions := e.portfolio.positions.set i pos' } }
        -- line 366: check stop loss / take profit on the updated position
        let r := checkStopLossTakeProfit e' nid pos'
        updateMarketDataLoop symbol price fuel (i + 1) r.1 r.2 true
      else
        updateMarketDataLoop symbol price fuel (i + 1) e nid upd
    else (e, nid, upd)

/-- updateMarketData restricted to one portfolio entry (portfolioManager.ts
lines 346-376): run the position loop, then recompute the metrics when any
position of the symbol was updated. -/
def updateMarketDataEntry (symbol : String) (price : ℚ) (e : PortfolioEntry)
    (nid : Nat) : PortfolioEntry × Nat :=
  let r := updateMarketDataLoop symbol price e.portfolio.positions.length 0 e nid false
  if r.2.2 then
    ({ r.1 with portfolio := updatePortfolioMetrics r.1.portfolio }, r.2.1)
  else (r.1, r.2.1)

/-- One step of `updateMarketData`'s fold over the portfolios: update the next
portfolio entry, threading the id counter. -/
def updateEntriesStep (symbol : String) (price : ℚ)
    (acc : List PortfolioEntry × Nat) (e : PortfolioEntry) :
    List PortfolioEntry × Nat :=
  let r := updateMarketDataEntry symbol price e acc.2
  (acc.1 ++ [r.1], r.2)

/-- updateMarketData (portfolioManager.ts lines 342-377): cache the tick price
and update every portfolio. -/
def updateMarketData (st : ManagerState) (symbol : String) (price : ℚ) :
    ManagerState :=
  let res := st.entries.foldl (updateEntriesStep symbol price) ([], st.nextId)
  { entries := res.1, marketData := setMarketPrice st.marketData symbol price,
    nextId := res.2 }

/-- Result of `executeSignal`; the source returns `{success, trade?, position?,
error?}` with these three error strings. -/
inductive ExecResult where
  | ok
  | portfolioNotFound      -- error: 'Portfolio not found'
  | marketDataUnavailable  -- error: 'Market data not available'
  | insufficientFunds      -- error: 'Insufficient funds'
  deriving DecidableEq

/-- executeSignal (portfolioManager.ts lines 163-260). -/
def executeSignal (st : ManagerState) (portfolioId : Nat)
    (signal : PipelineSignal) : ManagerState × ExecResult :=
  let idx := st.entries.findIdx (fun e => e.portfolio.id == portfolioId)
  if h : idx < st.entries.length then
    let e := st.entries.get ⟨idx, h⟩
    match getMarketPrice st.marketData signal.symbol with
    | none => (st, ExecResult.marketDataUnavailable)
    | some _ =>
      let pf := e.portfolio
      -- lines 190-197: position sizing
      let positionValue := min (pf.availableCash * 0.2) 10000
      let quantity := positionValue / signal.entryPrice
      let totalCost := quantity * signal.entryPrice
      let fees := totalCost * 0.001
      -- line 200: insufficient-funds check
      if totalCost + fees > pf.availableCash then
        (st, ExecResult.insufficientFunds)
      else
        let trade : Trade :=
          { id := st.nextId, portfolioId := portfolioId,
            symbol := signal.symbol,
            side := match signal.direction with
              | SignalDirection.BUY => TradeSide.BUY
              | _ => TradeSide.SELL,
            quantity := quantity, price := signal.entryPrice,
            value := totalCost, fees := fees, signalId := some signal.id }
        let position : Position :=
          { id := st.nextId + 1, symbol := signal.symbol,
            side := match signal.direction with
              | SignalDirection.BUY => PositionSide.LONG
              | _ => PositionSide.SHORT,
            quantity := quantity, entryPrice := signal.entryPrice,
            currentPrice := signal.entryPrice, marketValue := totalCost,
            unrealizedPnL := 0, realizedPnL := 0,
            stopLoss := some signal.stopLoss,
            takeProfit := some signal.takeProfit,
            status := PositionStatus.OPEN, fees := fees }
        let pf := { pf with
          availableCash := pf.availableCash - (totalCost + fees),
          positions := pf.positions ++ [position] }
        let pf := updatePortfolioMetrics pf
        let e' := { e with portfolio := pf, trades := e.trades ++ [trade] }
        ({ st with entries := st.entries.set idx e', nextId := st.nextId + 2 },
          ExecResult.ok)
  else (st, ExecResult.portfolioNotFound)

/-- closePosition (portfolioManager.ts lines 265-337) at manager level. -/
def closePosition (st : ManagerState) (portfolioId : Nat) (positionId : Nat)
    (currentPrice : Option ℚ) : ManagerState :=
  let idx := st.entries.findIdx (fun e => e.portfolio.id == portfolioId)
  if h : idx < st.entries.length then
    let e := st.entries.get ⟨idx, h⟩
    let r := closePositionEntry e st.nextId positionId currentPrice
    { st with entries := st.entries.set idx r.1, nextId := r.2.1 }
  else st

/-- The mutating public operations of the PortfolioManager. -/
inductive ManagerOp where
  | create (initialCash : ℚ)
  | exec (portfolioId : Nat) (signal : PipelineSignal)
  | close (portfolioId : Nat) (positionId : Nat) (currentPrice : Option ℚ)
  | update (symbol : String) (price : ℚ)
  deriving DecidableEq

/-- One manager operation. -/
def managerStep (st : ManagerState) : ManagerOp → ManagerState
  | ManagerOp.create cash => createPortfolio st cash
  | ManagerOp.exec pid sig => (executeSignal st pid sig).1
  | ManagerOp.close pid posId price => closePosition st pid posId price
  | ManagerOp.update symbol price => updateMarketData st symbol price

/-- Run a sequence of operations from the constructor's initial state. -/
def runManager (ops : List ManagerOp) : ManagerState :=
  ops.foldl managerStep initialManagerState

/-! ## Invariant predicates -/

/-- The spec's ledger invariant:
`totalValue = availableCash + Σ openPositions.marketValue`. -/
def portfolioBalanced (pf : Portfolio) : Prop :=
  pf.totalValue = pf.availableCash + sumMarketValue pf.positions

/-- Every portfolio of the manager state is balanced. -/
def managerBalanced (st : ManagerState) : Prop :=
  ∀ e ∈ st.entries, portfolioBalanced e.portfolio

/-- Every element of every portfolio's `positions` array has status OPEN. -/
def managerAllOpen (st : ManagerState) : Prop :=
  ∀ e ∈ st.entries, ∀ p ∈ e.portfolio.positions, p.status = PositionStatus.OPEN

/-- The all-open property of one portfolio entry. -/
def entryAllOpen (e : PortfolioEntry) : Prop :=
  ∀ p ∈ e.portfolio.positions, p.status = PositionStatus.OPEN

/-! ## Concrete fixtures used by counterexamples and witnesses -/

/-- C2 scenario position: BTC LONG, entry 45000, stop loss 43000, qty 0.1. -/
def positionBtc : Position :=
  { id := 7, symbol := "BTC", side := PositionSide.LONG, quantity := 0.1,
    entryPrice := 45000, currentPrice := 45000, marketValue := 4500,
    unrealizedPnL := 0, realizedPnL := 0, stopLoss := some 43000,
    takeProfit := none, status := PositionStatus.OPEN, fees := 4.5 }

/-- C2 scenario portfolio holding `positionBtc` with 5000 available cash. -/
def portfolioBtc : Portfolio :=
  { id := 0, totalValue := 9500, availableCash := 5000,
    totalPnL := 0, dailyPnL := 0, positions := [positionBtc] }

/-- C2 scenario portfolio entry. -/
def entryBtc : PortfolioEntry :=
  { portfolio := portfolioBtc, trades := [], alerts := [] }

/-- C2 scenario manager state. -/
def stateBtc : ManagerState :=
  { entries := [entryBtc], marketData := [], nextId := 10 }

/-- A signal history holding one BTC signal at time 0. -/
def signalsBtc : List PipelineSignal :=
  [{ id := 0, symbol := "BTC", timestamp := 0, direction := SignalDirection.HOLD,
     entryPrice := 45000, stopLoss := 44000, takeProfit := 46000 }]

/-- Market data whose 24h change (5%) meets the volatility condition while the
technical and sentiment conditions fail. -/
def marketDataVolatile : LiveMarketData :=
  { tick := { price := 45000, change24h := 5 },
    orderBook := { bids := [] },
    technicals := { rsi := 50, macd := { macd := 0, signalLine := 0 } },
    sentiment := { score := 0, confidence := 0 } }

/-- Market data meeting none of the volatility/technical/sentiment conditions. -/
def marketDataQuiet : LiveMarketData :=
  { tick := { price := 45000, change24h := 0 },
    orderBook := { bids := [] },
    technicals := { rsi := 50, macd := { macd := 0, signalLine := 0 } },
    sentiment := { score := 0, confidence := 0 } }

/-- Five open BTC positions (risk-manager view). -/
def positionsFiveBtc : List PositionRisk :=
  [{ symbol := "BTC/USD" }, { symbol := "BTC/USD" }, { symbol := "BTC/USD" },
   { symbol := "BTC/USD" }, { symbol := "BTC/USD" }]

/-- A large BTC signal (entry price 200, so 100 shares exceed the 10000 size
limit). -/
def signalLargeBtc : PipelineSignal :=
  { id := 0, symbol := "BTC/USD", timestamp := 0,
    direction := SignalDirection.BUY, entryPrice := 200, stopLoss := 196,
    takeProfit := 212 }

/-- Market data violating the volatility (40 > 25) and liquidity (no bids)
checks. -/
def marketDataRisky : LiveMarketData :=
  { tick := { price := 200, change24h := 20 },
    orderBook := { bids := [] },
    technicals := { rsi := 50, macd := { macd := 0, signalLine := 0 } },
    sentiment := { score := 0, confidence := 0 } }

/-- Risk state with the daily loss limit already breached (−2100 against a
2000 limit) and no alerts yet. -/
def riskStateLoss : RiskState :=
  { params := getDefaultRiskParameters, dailyPnL := -2100, alerts := [],
    nextId := 0 }

/-- Portfolio risk view triggering neither the drawdown nor the concentration
alert. -/
def portfolioRiskCalm : PortfolioRiskView :=
  { currentDrawdown := 0, concentrationRisk := 0 }

/-- The default portfolio created by the PortfolioManager constructor
($100,000 initial cash, no positions). -/
def portfolioInitial : Portfolio :=
  { id := 0, totalValue := 100000, availableCash := 100000,
    totalPnL := 0, dailyPnL := 0, positions := [] }

/-- The default portfolio's entry. -/
def entryInitial : PortfolioEntry :=
  { portfolio := portfolioInitial, trades := [], alerts := [] }

/-- The default portfolio with a cached BTC price. -/
def stateWithMd : ManagerState :=
  { entries := [entryInitial], marketData := [(("BTC"), 100)], nextId := 1 }

/-- An ordinary BUY signal at entry price 100. -/
def signalExec : PipelineSignal :=
  { id := 1, symbol := "BTC", timestamp := 0, direction := SignalDirection.BUY,
    entryPrice := 100, stopLoss := 98, takeProfit := 106 }

/-- `positionBtc` at the exact stop-loss boundary price. -/
def positionBtcAtStop : Position :=
  { positionBtc with currentPrice := 43000 }

/-- A LONG position at the exact take-profit boundary price. -/
def positionBtcAtTarget : Position :=
  { positionBtc with
      stopLoss := none, takeProfit := some 43000, currentPrice := 43000 }

/-! ## Helper lemmas: evaluateSignalRisk projections -/

/-- The returned risk score is the sum of the per-reason penalties. -/
theorem evaluateSignalRisk_riskScore_eq (rp : RiskParameters) (dailyPnL : ℚ)
    (positions : List PositionRisk) (signal : PipelineSignal)
    (marketData : LiveMarketData) :
    (evaluateSignalRisk rp dailyPnL positions signal marketData).riskScore =
      (if signal.entryPrice * 100 > rp.maxPositionSize then (30 : ℚ) else 0) +
      (if dailyPnL < -rp.maxDailyLoss then 50 else 0) +
      (if positions.length ≥ rp.maxOpenPositions then 25 else 0) +
      (if calculateVolatility marketData > rp.volatilityThreshold then 20 else 0) +
      (if calculateCorrelationRisk positions signal.symbol > rp.correlationLimit then 15 else 0) +
      (if assessLiquidityRisk marketData > 0.5 then 10 else 0) := by
  show (if decide (signal.entryPrice * 100 > rp.maxPositionSize) then (30 : ℚ) else 0) +
      (if decide (dailyPnL < -rp.maxDailyLoss) then (50 : ℚ) else 0) +
      (if decide (positions.length ≥ rp.maxOpenPositions) then (25 : ℚ) else 0) +
      (if decide (calculateVolatility marketData > rp.volatilityThreshold) then (20 : ℚ) else 0) +
      (if decide (calculateCorrelationRisk positions signal.symbol > rp.correlationLimit) then (15 : ℚ) else 0) +
      (if decide (assessLiquidityRisk marketData > 0.5) then (10 : ℚ) else 0) = _
  simp only [decide_eq_true_eq]

/-- The returned approval flag is the conjunction of the three hard checks and
the riskScore < 70 test. -/
theorem evaluateSignalRisk_approved_eq (rp : RiskParameters) (dailyPnL : ℚ)
    (positions : List PositionRisk) (signal : PipelineSignal)
    (marketData : LiveMarketData) :
    (evaluateSignalRisk rp dailyPnL positions signal marketData).approved =
      (!decide (signal.entryPrice * 100 > rp.maxPositionSize) &&
       !decide (dailyPnL < -rp.maxDailyLoss) &&
       !decide (positions.length ≥ rp.maxOpenPositions) &&
       decide ((evaluateSignalRisk rp dailyPnL positions signal
         marketData).riskScore < 70)) := by
  rfl

/-- The reasons list, with the daily-loss entry made explicit. -/
theorem evaluateSignalRisk_reasons_eq (rp : RiskParameters) (dailyPnL : ℚ)
    (positions : List PositionRisk) (signal : PipelineSignal)
    (marketData : LiveMarketData) (hd : dailyPnL < -rp.maxDailyLoss) :
    (evaluateSignalRisk rp dailyPnL positions signal marketData).reasons =
      (if signal.entryPrice * 100 > rp.maxPositionSize then
        [("Position size exceeds maximum limit")] else []) ++
      (("Daily loss limit reached") ::
      ((if positions.length ≥ rp.maxOpenPositions then
        [("Maximum open positions reached")] else []) ++
      (if calculateVolatility marketData > rp.volatilityThreshold then
        [("Market volatility too high")] else []) ++
      (if calculateCorrelationRisk positions signal.symbol > rp.correlationLimit then
        [("High correlation with existing positions")] else []) ++
      (if assessLiquidityRisk marketData > 0.5 then
        [("Insufficient market liquidity")] else []))) := by
  show (if decide (signal.entryPrice * 100 > rp.maxPositionSize) then
          [("Position size exceeds maximum limit")] else []) ++
       (if decide (dailyPnL < -rp.maxDailyLoss) then
          [("Daily loss limit reached")] else []) ++
       (if decide (positions.length ≥ rp.maxOpenPositions) then
          [("Maximum open positions reached")] else []) ++
       (if decide (calculateVolatility marketData > rp.volatilityThreshold) then
          [("Market volatility too high")] else []) ++
       (if decide (calculateCorrelationRisk positions signal.symbol > rp.correlationLimit) then
          [("High correlation with existing positions")] else []) ++
       (if decide (assessLiquidityRisk marketData > 0.5) then
          [("Insufficient market liquidity")] else []) = _
  simp only [decide_eq_true_eq, if_pos hd]
  split_ifs <;> simp

/-! ## Claim C3 -/

/-- C3: whenever the risk state has dailyPnL = −2100 against a configured
maxDailyLoss of 2000, `evaluateSignalRisk` rejects every signal
(approved = false) and its reasons list contains "Daily loss limit reached". -/
theorem C3_daily_loss_limit_rejection (rp : RiskParameters) (dailyPnL : ℚ)
    (positions : List PositionRisk) (signal : PipelineSignal)
    (marketData : LiveMarketData)
    (hmax : rp.maxDailyLoss = 2000) (hpnl : dailyPnL = -2100) :
    (evaluateSignalRisk rp dailyPnL positions signal marketData).approved = false ∧
    ("Daily loss limit reached") ∈
      (evaluateSignalRisk rp dailyPnL positions signal marketData).reasons := by
  have hd : dailyPnL < -rp.maxDailyLoss := by rw [hmax, hpnl]; norm_num
  constructor
  · rw [evaluateSignalRisk_approved_eq]
    simp [hd]
  · rw [evaluateSignalRisk_reasons_eq rp dailyPnL positions signal marketData hd]
    simp

/-- C3 witness: the rejection at a concrete signal and market snapshot. -/
theorem C3_daily_loss_limit_rejection_witness :
    (evaluateSignalRisk getDefaultRiskParameters (-2100) [] signalExec
      marketDataQuiet).approved = false ∧
    ("Daily loss limit reached") ∈
      (evaluateSignalRisk getDefaultRiskParameters (-2100) [] signalExec
        marketDataQuiet).reasons :=
  C3_daily_loss_limit_rejection getDefaultRiskParameters (-2100) [] signalExec
    marketDataQuiet rfl rfl

/-! ## Claim C4 -/

/-- C4: `evaluateSignalRisk` never approves once the tracked open-position
count reaches maxOpenPositions, and in general approval holds exactly when
none of the size / daily-loss / position-count hard checks fires and the
returned riskScore is below 70. -/
theorem C4_maxOpenPositions_and_approval (rp : RiskParameters) (dailyPnL : ℚ)
    (positions : List PositionRisk) (signal : PipelineSignal)
    (marketData : LiveMarketData) :
    ((evaluateSignalRisk rp dailyPnL positions signal marketData).approved = true ↔
      (¬(signal.entryPrice * 100 > rp.maxPositionSize) ∧
       ¬(dailyPnL < -rp.maxDailyLoss) ∧
       ¬(positions.length ≥ rp.maxOpenPositions) ∧
       (evaluateSignalRisk rp dailyPnL positions signal marketData).riskScore < 70)) ∧
    (positions.length ≥ rp.maxOpenPositions →
      (evaluateSignalRisk rp dailyPnL positions signal marketData).approved = false) := by
  constructor
  · rw [evaluateSignalRisk_approved_eq]
    simp [and_assoc]
  · intro h
    rw [evaluateSignalRisk_approved_eq]
    simp [h]

/-- C4 witness: five tracked positions against the default maximum of five
force a rejection. -/
theorem C4_maxOpenPositions_and_approval_witness :
    (evaluateSignalRisk getDefaultRiskParameters 0 positionsFiveBtc signalExec
      marketDataQuiet).approved = false :=
  (C4_maxOpenPositions_and_approval getDefaultRiskParameters 0 positionsFiveBtc
    signalExec marketDataQuiet).2 (by decide)

/-! ## Claim C8 (corrected) -/

/-- C8 counterexample: with all six penalties triggered the returned riskScore
is 150, outside the claimed range [0, 100] (only the `adjustments` copy is
clamped to 100). -/
theorem C8_riskScore_range_counterexample :
    (evaluateSignalRisk getDefaultRiskParameters (-2100) positionsFiveBtc
      signalLargeBtc marketDataRisky).riskScore = 150 ∧
    ¬((evaluateSignalRisk getDefaultRiskParameters (-2100) positionsFiveBtc
      signalLargeBtc marketDataRisky).riskScore ≤ 100) := by
  with_unfolding_all decide

/-- C8 amended: the returned riskScore is the sum of the independent
per-reason penalties (30 + 50 + 25 + 20 + 15 + 10) and lies in [0, 150];
the [0, 100] clamp applies only to the riskScore inside `adjustments`,
which equals min(riskScore, 100). -/
theorem C8_riskScore_sum_amended (rp : RiskParameters) (dailyPnL : ℚ)
    (positions : List PositionRisk) (signal : PipelineSignal)
    (marketData : LiveMarketData) :
    (evaluateSignalRisk rp dailyPnL positions signal marketData).riskScore =
      (if signal.entryPrice * 100 > rp.maxPositionSize then 30 else 0) +
      (if dailyPnL < -rp.maxDailyLoss then 50 else 0) +
      (if positions.length ≥ rp.maxOpenPositions then 25 else 0) +
      (if calculateVolatility marketData > rp.volatilityThreshold then 20 else 0) +
      (if calculateCorrelationRisk positions signal.symbol > rp.correlationLimit then 15 else 0) +
      (if assessLiquidityRisk marketData > 0.5 then 10 else 0) ∧
    0 ≤ (evaluateSignalRisk rp dailyPnL positions signal marketData).riskScore ∧
    (evaluateSignalRisk rp dailyPnL positions signal marketData).riskScore ≤ 150 ∧
    (evaluateSignalRisk rp dailyPnL positions signal marketData).adjustments.riskScore =
      min (evaluateSignalRisk rp dailyPnL positions signal marketData).riskScore 100 ∧
    (evaluateSignalRisk rp dailyPnL positions signal marketData).adjustments.riskScore ≤ 100 := by
  refine ⟨evaluateSignalRisk_riskScore_eq rp dailyPnL positions signal marketData,
    ?_, ?_, rfl, ?_⟩
  · rw [evaluateSignalRisk_riskScore_eq]
    split_ifs <;> norm_num
  · rw [evaluateSignalRisk_riskScore_eq]
    split_ifs <;> norm_num
  · exact min_le_right _ _

/-! ## Claim C5 (corrected) -/

/-- C5 counterexample: with a prior BTC signal only 10 s old (cooldown and
force thresholds are both 30 s, so neither has elapsed), a 5% 24h move makes
the volatility condition true, and `shouldGenerateSignal` already decides to
emit a second signal — signal generation needs only one of the four
conditions, and the cooldown is merely one of them. -/
theorem C5_cooldown_counterexample :
    shouldGenerateSignal 10000 signalsBtc ("BTC") marketDataVolatile = true ∧
    getTimeSinceLastSignal 10000 signalsBtc ("BTC") = some 10000 ∧
    ¬((10000 : ℤ) > cooldownMs) ∧ ¬((10000 : ℤ) > forceMs) := by
  have hvol : checkVolatilityCondition marketDataVolatile = true := by
    norm_num [checkVolatilityCondition, marketDataVolatile]
  refine ⟨?_, by decide, by decide, by decide⟩
  have htech : checkTechnicalCondition marketDataVolatile = false := by
    norm_num [checkTechnicalCondition, marketDataVolatile]
  have hsent : checkSentimentCondition marketDataVolatile = false := by
    norm_num [checkSentimentCondition, marketDataVolatile]
  simp only [shouldGenerateSignal, hvol, htech, hsent]
  decide

/-- C5 amended: a second signal inside the cooldown window is prevented only
when the volatility, technical and sentiment conditions are all false; in that
case no signal is emitted while the cooldown has not elapsed (the force
threshold equals the cooldown, so it cannot have elapsed either). -/
theorem C5_cooldown_amended (now : ℤ) (signals : List PipelineSignal)
    (symbol : String) (data : LiveMarketData) (d : ℤ)
    (hvol : checkVolatilityCondition data = false)
    (htech : checkTechnicalCondition data = false)
    (hsent : checkSentimentCondition data = false)
    (hts : getTimeSinceLastSignal now signals symbol = some d)
    (hcd : d ≤ cooldownMs) :
    shouldGenerateSignal now signals symbol data = false := by
  obtain ⟨t, ht, hd⟩ := Option.map_eq_some'.mp hts
  have htc : checkTimeCondition now signals symbol = false := by
    simp only [checkTimeCondition, ht]
    subst hd
    simpa using not_lt.mpr hcd
  simp only [shouldGenerateSignal, hvol, htech, hsent, htc,
    getTimeSinceLastSignal, ht]
  subst hd
  simpa using not_lt.mpr hcd

/-- C5 amended witness: quiet market data, last BTC signal 20 s old. -/
theorem C5_cooldown_amended_witness :
    shouldGenerateSignal 20000 signalsBtc ("BTC") marketDataQuiet = false :=
  C5_cooldown_amended 20000 signalsBtc ("BTC") marketDataQuiet 20000
    (by norm_num [checkVolatilityCondition, marketDataQuiet])
    (by norm_num [checkTechnicalCondition, marketDataQuiet])
    (by norm_num [checkSentimentCondition, marketDataQuiet])
    (by decide) (by decide)

/-! ## Claim C6 (corrected) -/

/-- C6 counterexample: the force-generation threshold is NOT larger than the
cooldown minimum — both are 30000 ms — and at a state where all four
conditions are false (prior signal 20 s old, quiet data) no signal is
emitted: the force branch cannot fire. -/
theorem C6_force_threshold_counterexample :
    ¬(cooldownMs < forceMs) ∧
    checkVolatilityCondition marketDataQuiet = false ∧
    checkTechnicalCondition marketDataQuiet = false ∧
    checkSentimentCondition marketDataQuiet = false ∧
    checkTimeCondition 20000 signalsBtc ("BTC") = false ∧
    shouldGenerateSignal 20000 signalsBtc ("BTC") marketDataQuiet = false := by
  have hvol : checkVolatilityCondition marketDataQuiet = false := by
    norm_num [checkVolatilityCondition, marketDataQuiet]
  have htech : checkTechnicalCondition marketDataQuiet = false := by
    norm_num [checkTechnicalCondition, marketDataQuiet]
  have hsent : checkSentimentCondition marketDataQuiet = false := by
    norm_num [checkSentimentCondition, marketDataQuiet]
  refine ⟨by decide, hvol, htech, hsent, by decide, ?_⟩
  simp only [shouldGenerateSignal, hvol, htech, hsent]
  decide

/-- C6 amended: the force threshold equals the cooldown minimum (30000 ms),
so whenever all four generation conditions are false the elapsed time since
the last signal is at most the force threshold and no signal is emitted —
the force-generation branch is unreachable. -/
theorem C6_force_threshold_amended :
    forceMs = cooldownMs ∧
    ∀ (now : ℤ) (signals : List PipelineSignal) (symbol : String)
      (data : LiveMarketData),
      checkVolatilityCondition data = false →
      checkTechnicalCondition data = false →
      checkSentimentCondition data = false →
      checkTimeCondition now signals symbol = false →
      shouldGenerateSignal now signals symbol data = false := by
  refine ⟨rfl, ?_⟩
  intro now signals symbol data hvol htech hsent htc
  rcases ht : lastSignalTimestamp signals symbol with _ | t
  · rw [checkTimeCondition, ht] at htc
    simp at htc
  · have hle : now - t ≤ cooldownMs := by
      rw [checkTimeCondition, ht] at htc
      simpa using htc
    simp only [shouldGenerateSignal, hvol, htech, hsent, htc,
      getTimeSinceLastSignal, ht]
    simpa using not_lt.mpr hle

/-- C6 amended witness: all four conditions false at a concrete state. -/
theorem C6_force_threshold_amended_witness :
    shouldGenerateSignal 25000 signalsBtc ("BTC") marketDataQuiet = false :=
  C6_force_threshold_amended.2 25000 signalsBtc ("BTC") marketDataQuiet
    (by norm_num [checkVolatilityCondition, marketDataQuiet])
    (by norm_num [checkTechnicalCondition, marketDataQuiet])
    (by norm_num [checkSentimentCondition, marketDataQuiet])
    (by decide)

/-! ## Claim C7 (corrected) -/

/-- C7 counterexample: with the daily-loss condition continuously true
(dailyPnL = −2100 against the 2000 limit) and the other conditions false,
two consecutive runs of `checkRiskAlerts` leave TWO live alerts for the same
(PORTFOLIO, daily-loss) condition — `generateAlert` creates a fresh alert on
every run, keyed by nothing, and `RiskAlert` has no resolved flag. -/
theorem C7_alert_dedup_counterexample :
    ((checkRiskAlerts (checkRiskAlerts riskStateLoss portfolioRiskCalm)
        portfolioRiskCalm).alerts.map
      (fun a => (a.rtype, a.message, a.action, a.threshold))) =
    [(RiskAlertType.PORTFOLIO, ("Daily loss approaching limit"),
        RiskAction.HALT, 2000),
     (RiskAlertType.PORTFOLIO, ("Daily loss approaching limit"),
        RiskAction.HALT, 2000)] ∧
    (checkRiskAlerts (checkRiskAlerts riskStateLoss portfolioRiskCalm)
        portfolioRiskCalm).alerts.length = 2 := by
  norm_num [checkRiskAlerts, generateAlert, riskStateLoss, portfolioRiskCalm,
    getDefaultRiskParameters]

/-- C7 amended: while the daily-loss condition holds (and the drawdown and
concentration conditions do not), every run of `checkRiskAlerts` prepends a
fresh daily-loss alert with a new id to the alert list (truncated to 100),
regardless of any identical alert already present; alerts carry no resolved
flag and are never resolved. -/
theorem C7_alert_recreated_amended (st : RiskState) (pr : PortfolioRiskView)
    (hdaily : st.dailyPnL < -st.params.maxDailyLoss * 0.8)
    (hdd : ¬(pr.currentDrawdown > st.params.maxDrawdown * 0.8))
    (hconc : ¬(pr.concentrationRisk > 0.4)) :
    (checkRiskAlerts st pr).alerts =
      ({ id := st.nextId, rtype := RiskAlertType.PORTFOLIO,
         severity := if st.dailyPnL < -st.params.maxDailyLoss
           then RiskSeverity.CRITICAL else RiskSeverity.HIGH,
         message := ("Daily loss approaching limit"), value := |st.dailyPnL|,
         threshold := st.params.maxDailyLoss,
         action := if st.dailyPnL < -st.params.maxDailyLoss
           then RiskAction.HALT else RiskAction.MONITOR } ::
        st.alerts).take 100 ∧
    (checkRiskAlerts st pr).nextId = st.nextId + 1 := by
  unfold checkRiskAlerts
  dsimp only
  rw [if_pos hdaily]
  simp only [generateAlert]
  rw [if_neg hdd, if_neg hconc]
  exact ⟨rfl, rfl⟩

/-- C7 amended witness: a run on the concrete loss state prepends the
daily-loss alert. -/
theorem C7_alert_recreated_amended_witness :
    (checkRiskAlerts riskStateLoss portfolioRiskCalm).alerts =
      ({ id := riskStateLoss.nextId, rtype := RiskAlertType.PORTFOLIO,
         severity := if riskStateLoss.dailyPnL <
             -riskStateLoss.params.maxDailyLoss
           then RiskSeverity.CRITICAL else RiskSeverity.HIGH,
         message := ("Daily loss approaching limit"),
         value := |riskStateLoss.dailyPnL|,
         threshold := riskStateLoss.params.maxDailyLoss,
         action := if riskStateLoss.dailyPnL <
             -riskStateLoss.params.maxDailyLoss
           then RiskAction.HALT else RiskAction.MONITOR } ::
        riskStateLoss.alerts).take 100 ∧
    (checkRiskAlerts riskStateLoss portfolioRiskCalm).nextId =
      riskStateLoss.nextId + 1 :=
  C7_alert_recreated_amended riskStateLoss portfolioRiskCalm
    (by norm_num [riskStateLoss, getDefaultRiskParameters])
    (by norm_num [riskStateLoss, portfolioRiskCalm, getDefaultRiskParameters])
    (by norm_num [portfolioRiskCalm])

/-! ## Claim C2 -/

/-- C2: feeding a 42900 snapshot to a portfolio holding the LONG BTC position
(entry 45000, stop loss 43000, quantity 0.1) auto-closes the position —
it is removed from the positions array, the realized PnL
(42900 − 45000) · 0.1 = −210 is credited to dailyPnL and totalPnL and
returned by the close, and a POSITION alert whose message contains
"Stop Loss" is emitted; the stop-loss/take-profit comparisons are inclusive:
a LONG position exactly at its stop loss or take profit also triggers. -/
theorem C2_stopLoss_autoClose_scenario :
    (updateMarketData stateBtc ("BTC") 42900).entries.map
      (fun e => (e.portfolio.positions, e.portfolio.dailyPnL,
        e.portfolio.totalPnL,
        e.alerts.map (fun a => (a.ptype, a.message)))) =
      [([], -210, -210,
        [(PortfolioAlertType.POSITION,
          ("Position closed automatically: BTC (Stop Loss)"))])] ∧
    (closePositionEntry entryBtc 10 7 (some 42900)).2.2 = some (-210) ∧
    (∃ pre suf, ("Position closed automatically: BTC (Stop Loss)") =
      pre ++ ("Stop Loss") ++ suf) ∧
    shouldClosePosition positionBtcAtStop = true ∧
    shouldClosePosition positionBtcAtTarget = true := by
  refine ⟨?_, ?_,
    ⟨("Position closed automatically: BTC ("), (")"), rfl⟩, ?_, ?_⟩
  · with_unfolding_all decide
  · with_unfolding_all decide
  · with_unfolding_all decide
  · with_unfolding_all decide

/-! ## Claim C9 -/

/-- C9: when every portfolio has nonnegative available cash and the signal's
entry price is positive (with market data cached for its symbol),
`executeSignal` can never return the insufficient-funds error: the position is
sized at min(20% of cash, 10000), so cost + 0.1% fees is at most
0.2002 · cash (when 20% of cash ≤ 10000) or 10010 < cash (when cash > 50000). -/
theorem C9_insufficient_funds_unreachable (st : ManagerState) (pid : Nat)
    (sig : PipelineSignal)
    (hcash : ∀ e ∈ st.entries, 0 ≤ e.portfolio.availableCash)
    (hprice : 0 < sig.entryPrice)
    (hmd : getMarketPrice st.marketData sig.symbol ≠ none) :
    (executeSignal st pid sig).2 ≠ ExecResult.insufficientFunds := by
  clear hmd
  unfold executeSignal
  dsimp only
  split
  · split
    · simp
    · split
      · exfalso
        rename_i hfound cp md heq hgt
        have hc : 0 ≤ (st.entries.get ⟨_, hfound⟩).portfolio.availableCash :=
          hcash _ (List.get_mem st.entries _ _)
        set cash := (st.entries.get ⟨_, hfound⟩).portfolio.availableCash
          with hcashdef
        rw [div_mul_cancel₀ _ (ne_of_gt hprice)] at hgt
        rcases le_or_lt (cash * 0.2) 10000 with hm | hm
        · rw [min_eq_left hm] at hgt
          nlinarith
        · rw [min_eq_right (le_of_lt hm)] at hgt
          nlinarith
      · simp
  · simp

/-- C9 witness: executing an ordinary signal on the freshly created default
portfolio does not hit the insufficient-funds branch. -/
theorem C9_insufficient_funds_unreachable_witness :
    (executeSignal stateWithMd 0 signalExec).2 ≠
      ExecResult.insufficientFunds :=
  C9_insufficient_funds_unreachable stateWithMd 0 signalExec
    (by intro e he
        rcases List.mem_singleton.mp he with rfl
        norm_num [entryInitial, portfolioInitial])
    (by norm_num [signalExec])
    (by decide)

/-! ## Helper lemmas: the ledger invariants through each operation -/

/-- `updatePortfolioMetrics` establishes the balance invariant by
construction. -/
theorem updatePortfolioMetrics_balanced (pf : Portfolio) :
    portfolioBalanced (updatePortfolioMetrics pf) := rfl

/-- Closing a position preserves the balance invariant (the success branch
ends in `updatePortfolioMetrics`). -/
theorem closePositionEntry_balanced (e : PortfolioEntry) (nid : Nat)
    (positionId : Nat) (currentPrice : Option ℚ)
    (h : portfolioBalanced e.portfolio) :
    portfolioBalanced (closePositionEntry e nid positionId currentPrice).1.portfolio := by
  unfold closePositionEntry
  dsimp only
  split
  · exact updatePortfolioMetrics_balanced _
  · exact h

/-- `addAlertEntry` does not touch the portfolio. -/
theorem addAlertEntry_portfolio (e : PortfolioEntry) (nid : Nat)
    (t : PortfolioAlertType) (sev : PortfolioAlertSeverity) (msg : String) :
    (addAlertEntry e nid t sev msg).1.portfolio = e.portfolio := rfl

/-- The stop-loss/take-profit check preserves the balance invariant. -/
theorem checkStopLossTakeProfit_balanced (e : PortfolioEntry) (nid : Nat)
    (pos : Position) (h : portfolioBalanced e.portfolio) :
    portfolioBalanced (checkStopLossTakeProfit e nid pos).1.portfolio := by
  unfold checkStopLossTakeProfit
  dsimp only
  split
  · exact h
  · split
    · rw [addAlertEntry_portfolio]
      exact closePositionEntry_balanced _ _ _ _ h
    · exact h

/-- The position loop's `updated` flag, once true, stays true. -/
theorem updateMarketDataLoop_flag_true (symbol : String) (price : ℚ)
    (fuel : Nat) : ∀ (i : Nat) (e : PortfolioEntry) (nid : Nat),
    (updateMarketDataLoop symbol price fuel i e nid true).2.2 = true := by
  induction fuel with
  | zero => intro i e nid; rfl
  | succ fuel ih =>
    intro i e nid
    rw [updateMarketDataLoop]
    split
    · dsimp only
      split
      · exact ih _ _ _
      · exact ih _ _ _
    · rfl

/-- If the position loop reports no update, it changed nothing. -/
theorem updateMarketDataLoop_false_eq (symbol : String) (price : ℚ)
    (fuel : Nat) : ∀ (i : Nat) (e : PortfolioEntry) (nid : Nat),
    (updateMarketDataLoop symbol price fuel i e nid false).2.2 = false →
    (updateMarketDataLoop symbol price fuel i e nid false).1 = e := by
  induction fuel with
  | zero => intro i e nid _; rfl
  | succ fuel ih =>
    intro i e nid hres
    rw [updateMarketDataLoop] at hres ⊢
    by_cases h1 : i < e.portfolio.positions.length
    · rw [dif_pos h1] at hres ⊢
      dsimp only at hres ⊢
      by_cases h2 : ((e.portfolio.positions.get ⟨i, h1⟩).symbol == symbol) = true
      · rw [if_pos h2] at hres
        rw [updateMarketDataLoop_flag_true] at hres
        exact absurd hres (by simp)
      · rw [if_neg h2] at hres ⊢
        exact ih _ _ _ hres
    · rw [dif_neg h1]

/-- A per-entry market-data update preserves the balance invariant: either the
entry is untouched, or metrics are recomputed at the end. -/
theorem updateMarketDataEntry_balanced (symbol : String) (price : ℚ)
    (e : PortfolioEntry) (nid : Nat) (h : portfolioBalanced e.portfolio) :
    portfolioBalanced (updateMarketDataEntry symbol price e nid).1.portfolio := by
  unfold updateMarketDataEntry
  dsimp only
  split
  · exact updatePortfolioMetrics_balanced _
  · next hflag =>
    have := updateMarketDataLoop_false_eq symbol price
      e.portfolio.positions.length 0 e nid (by simpa using hflag)
    rw [this]
    exact h

/-- `createPortfolio` preserves the balance invariant. -/
theorem createPortfolio_balanced (st : ManagerState) (cash : ℚ)
    (h : managerBalanced st) : managerBalanced (createPortfolio st cash) := by
  intro e he
  rcases List.mem_append.mp he with he | he
  · exact h e he
  · rcases List.mem_singleton.mp he with rfl
    show (cash : ℚ) = cash + sumMarketValue []
    simp [sumMarketValue]

/-- `executeSignal` preserves the balance invariant. -/
theorem executeSignal_balanced (st : ManagerState) (pid : Nat)
    (sig : PipelineSignal) (h : managerBalanced st) :
    managerBalanced (executeSignal st pid sig).1 := by
  unfold executeSignal
  dsimp only
  split
  · split
    · exact h
    · split
      · exact h
      · intro e he
        rcases List.mem_or_eq_of_mem_set he with he | rfl
        · exact h e he
        · exact updatePortfolioMetrics_balanced _
  · exact h

/-- `closePosition` preserves the balance invariant. -/
theorem closePosition_balanced (st : ManagerState) (pid posId : Nat)
    (price : Option ℚ) (h : managerBalanced st) :
    managerBalanced (closePosition st pid posId price) := by
  unfold closePosition
  dsimp only
  split
  · intro e he
    rcases List.mem_or_eq_of_mem_set he with he | rfl
    · exact h e he
    · exact closePositionEntry_balanced _ _ _ _
        (h _ (List.get_mem st.entries _ _))
  · exact h

/-- The fold over all portfolios preserves the balance invariant. -/
theorem updateEntries_foldl_balanced (symbol : String) (price : ℚ) :
    ∀ (l : List PortfolioEntry) (acc : List PortfolioEntry × Nat),
    (∀ e ∈ l, portfolioBalanced e.portfolio) →
    (∀ e ∈ acc.1, portfolioBalanced e.portfolio) →
    ∀ e ∈ (l.foldl (updateEntriesStep symbol price) acc).1,
      portfolioBalanced e.portfolio := by
  intro l
  induction l with
  | nil => intro acc _ hacc e he; exact hacc e he
  | cons hd tl ih =>
    intro acc hl hacc e he
    refine ih _ (fun x hx => hl x (List.mem_cons_of_mem _ hx)) ?_ e he
    intro x hx
    rcases List.mem_append.mp hx with hx | hx
    · exact hacc x hx
    · rcases List.mem_singleton.mp hx with rfl
      exact updateMarketDataEntry_balanced _ _ _ _
        (hl hd (List.mem_cons_self _ _))

/-- `updateMarketData` preserves the balance invariant. -/
theorem updateMarketData_balanced (st : ManagerState) (symbol : String)
    (price : ℚ) (h : managerBalanced st) :
    managerBalanced (updateMarketData st symbol price) := by
  intro e he
  exact updateEntries_foldl_balanced symbol price st.entries ([], st.nextId)
    h (by simp) e he

/-- Every manager operation preserves the balance invariant. -/
theorem managerStep_balanced (st : ManagerState) (op : ManagerOp)
    (h : managerBalanced st) : managerBalanced (managerStep st op) := by
  cases op with
  | create cash => exact createPortfolio_balanced st cash h
  | exec pid sig => exact executeSignal_balanced st pid sig h
  | close pid posId price => exact closePosition_balanced st pid posId price h
  | update symbol price => exact updateMarketData_balanced st symbol price h

/-- Folding any operation sequence preserves the balance invariant. -/
theorem foldl_managerStep_balanced :
    ∀ (ops : List ManagerOp) (st : ManagerState), managerBalanced st →
    managerBalanced (ops.foldl managerStep st) := by
  intro ops
  induction ops with
  | nil => intro st h; exact h
  | cons op rest ih =>
    intro st h
    exact ih _ (managerStep_balanced st op h)

/-- The constructor's initial state is balanced. -/
theorem initialManagerState_balanced : managerBalanced initialManagerState := by
  intro e he
  rcases List.mem_singleton.mp he with rfl
  show (100000 : ℚ) = 100000 + sumMarketValue []
  simp [sumMarketValue]

/-! ## Claim C1 -/

/-- C1: after any sequence of manager operations (createPortfolio,
executeSignal, closePosition, updateMarketData) from the constructor's
initial state, every portfolio satisfies
`totalValue = availableCash + Σ positions.marketValue` exactly (so in
particular within any tolerance ε): every mutating branch either leaves the
portfolio untouched or ends by recomputing the metrics. -/
theorem C1_totalValue_invariant (ops : List ManagerOp) :
    (runManager ops).entries.Forall (fun e =>
      e.portfolio.totalValue =
        e.portfolio.availableCash + sumMarketValue e.portfolio.positions) := by
  rw [List.forall_iff_forall_mem]
  exact fun e he => foldl_managerStep_balanced ops initialManagerState
    initialManagerState_balanced e he

/-! ## Helper lemmas: all array positions stay OPEN -/

/-- `updatePortfolioMetrics` does not touch the positions array. -/
theorem updatePortfolioMetrics_positions (pf : Portfolio) :
    (updatePortfolioMetrics pf).positions = pf.positions := rfl

/-- Closing a position only removes from the positions array. -/
theorem closePositionEntry_allOpen (e : PortfolioEntry) (nid : Nat)
    (positionId : Nat) (currentPrice : Option ℚ) (h : entryAllOpen e) :
    entryAllOpen (closePositionEntry e nid positionId currentPrice).1 := by
  unfold closePositionEntry
  dsimp only
  split
  · intro p hp
    rw [updatePortfolioMetrics_positions] at hp
    exact h p ((List.eraseIdx_sublist _ _).subset hp)
  · exact h

/-- The stop-loss/take-profit check preserves the all-open property. -/
theorem checkStopLossTakeProfit_allOpen (e : PortfolioEntry) (nid : Nat)
    (pos : Position) (h : entryAllOpen e) :
    entryAllOpen (checkStopLossTakeProfit e nid pos).1 := by
  unfold checkStopLossTakeProfit
  dsimp only
  split
  · exact h
  · split
    · intro p hp
      rw [addAlertEntry_portfolio] at hp
      exact closePositionEntry_allOpen _ _ _ _ h p hp
    · exact h

/-- The position-update loop preserves the all-open property: price updates
keep each position's status, and auto-closes only remove positions. -/
theorem updateMarketDataLoop_allOpen (symbol : String) (price : ℚ)
    (fuel : Nat) : ∀ (i : Nat) (e : PortfolioEntry) (nid : Nat) (upd : Bool),
    entryAllOpen e →
    entryAllOpen (updateMarketDataLoop symbol price fuel i e nid upd).1 := by
  induction fuel with
  | zero => intro i e nid upd h; exact h
  | succ fuel ih =>
    intro i e nid upd h
    rw [updateMarketDataLoop]
    by_cases h1 : i < e.portfolio.positions.length
    · rw [dif_pos h1]
      dsimp only
      by_cases h2 : ((e.portfolio.positions.get ⟨i, h1⟩).symbol == symbol) = true
      · rw [if_pos h2]
        refine ih _ _ _ _ ?_
        refine checkStopLossTakeProfit_allOpen _ _ _ ?_
        intro p hp
        rcases List.mem_or_eq_of_mem_set hp with hp | rfl
        · exact h p hp
        · show (e.portfolio.positions.get ⟨i, h1⟩).status = PositionStatus.OPEN
          exact h _ (List.get_mem _ _ _)
      · rw [if_neg h2]
        exact ih _ _ _ _ h
    · rw [dif_neg h1]
      exact h

/-- A per-entry market-data update preserves the all-open property. -/
theorem updateMarketDataEntry_allOpen (symbol : String) (price : ℚ)
    (e : PortfolioEntry) (nid : Nat) (h : entryAllOpen e) :
    entryAllOpen (updateMarketDataEntry symbol price e nid).1 := by
  unfold updateMarketDataEntry
  dsimp only
  split
  · intro p hp
    rw [updatePortfolioMetrics_positions] at hp
    exact updateMarketDataLoop_allOpen symbol price _ 0 e nid false h p hp
  · exact updateMarketDataLoop_allOpen symbol price _ 0 e nid false h

/-- `createPortfolio` preserves the all-open property. -/
theorem createPortfolio_allOpen (st : ManagerState) (cash : ℚ)
    (h : managerAllOpen st) : managerAllOpen (createPortfolio st cash) := by
  intro e he
  rcases List.mem_append.mp he with he | he
  · exact h e he
  · rcases List.mem_singleton.mp he with rfl
    intro p hp
    simp at hp

/-- `executeSignal` inserts positions with status OPEN only. -/
theorem executeSignal_allOpen (st : ManagerState) (pid : Nat)
    (sig : PipelineSignal) (h : managerAllOpen st) :
    managerAllOpen (executeSignal st pid sig).1 := by
  unfold executeSignal
  dsimp only
  split
  · split
    · exact h
    · split
      · exact h
      · intro e he
        rcases List.mem_or_eq_of_mem_set he with he | rfl
        · exact h e he
        · intro p hp
          rw [updatePortfolioMetrics_positions] at hp
          rcases List.mem_append.mp hp with hp | hp
          · exact h _ (List.get_mem _ _ _) p hp
          · rcases List.mem_singleton.mp hp with rfl
            rfl
  · exact h

/-- `closePosition` preserves the all-open property. -/
theorem closePosition_allOpen (st : ManagerState) (pid posId : Nat)
    (price : Option ℚ) (h : managerAllOpen st) :
    managerAllOpen (closePosition st pid posId price) := by
  unfold closePosition
  dsimp only
  split
  · intro e he
    rcases List.mem_or_eq_of_mem_set he with he | rfl
    · exact h e he
    · exact closePositionEntry_allOpen _ _ _ _
        (h _ (List.get_mem st.entries _ _))
  · exact h

/-- The fold over all portfolios preserves the all-open property. -/
theorem updateEntries_foldl_allOpen (symbol : String) (price : ℚ) :
    ∀ (l : List PortfolioEntry) (acc : List PortfolioEntry × Nat),
    (∀ e ∈ l, entryAllOpen e) → (∀ e ∈ acc.1, entryAllOpen e) →
    ∀ e ∈ (l.foldl (updateEntriesStep symbol price) acc).1, entryAllOpen e := by
  intro l
  induction l with
  | nil => intro acc _ hacc e he; exact hacc e he
  | cons hd tl ih =>
    intro acc hl hacc e he
    refine ih _ (fun x hx => hl x (List.mem_cons_of_mem _ hx)) ?_ e he
    intro x hx
    rcases List.mem_append.mp hx with hx | hx
    · exact hacc x hx
    · rcases List.mem_singleton.mp hx with rfl
      exact updateMarketDataEntry_allOpen _ _ _ _
        (hl hd (List.mem_cons_self _ _))

/-- `updateMarketData` preserves the all-open property. -/
theorem updateMarketData_allOpen (st : ManagerState) (symbol : String)
    (price : ℚ) (h : managerAllOpen st) :
    managerAllOpen (updateMarketData st symbol price) := by
  intro e he
  exact updateEntries_foldl_allOpen symbol price st.entries ([], st.nextId)
    h (by simp) e he

/-- Every manager operation preserves the all-open property. -/
theorem managerStep_allOpen (st : ManagerState) (op : ManagerOp)
    (h : managerAllOpen st) : managerAllOpen (managerStep st op) := by
  cases op with
  | create cash => exact createPortfolio_allOpen st cash h
  | exec pid sig => exact executeSignal_allOpen st pid sig h
  | close pid posId price => exact closePosition_allOpen st pid posId price h
  | update symbol price => exact updateMarketData_allOpen st symbol price h

/-- Folding any operation sequence preserves the all-open property. -/
theorem foldl_managerStep_allOpen :
    ∀ (ops : List ManagerOp) (st : ManagerState), managerAllOpen st →
    managerAllOpen (ops.foldl managerStep st) := by
  intro ops
  induction ops with
  | nil => intro st h; exact h
  | cons op rest ih =>
    intro st h
    exact ih _ (managerStep_allOpen st op h)

/-! ## Claim C10 -/

/-- C10: after any sequence of manager operations from the constructor's
initial state, every element of every portfolio's `positions` array has
status OPEN — positions are inserted OPEN, and closing (manual or stop-loss /
take-profit driven) marks the record CLOSED and removes it from the array in
the same operation. -/
theorem C10_positions_all_open (ops : List ManagerOp) :
    (runManager ops).entries.Forall (fun e =>
      e.portfolio.positions.Forall
        (fun p => p.status = PositionStatus.OPEN)) := by
  rw [List.forall_iff_forall_mem]
  intro e he
  rw [List.forall_iff_forall_mem]
  intro p hp
  refine foldl_managerStep_allOpen ops initialManagerState ?_ e he p hp
  intro x hx
  rcases List.mem_singleton.mp hx with rfl
  intro q hq
  simp at hq
